import Mathlib

/-!
Shallow embedding of the authentication core of the madome platform: the
auth-service use-cases (`src/services/auth/src/usecase/*.rs`), the database
and cache repositories they drive (`src/services/auth/src/infra/*.rs`), the
cookie builders and the gateway identity extractor
(`src/crates/madome-auth-types/src/{cookie,identity}.rs`), together with
proofs of the specified properties of this code.

Conventions of the embedding:

* UUIDs are modelled as `Nat`; only equality, freshness and printing of
  UUIDs matter to the code under study.
* Database timestamps (`chrono::DateTime<Utc>`) are `Int` seconds; JWT
  timestamps (`u64` seconds since the epoch) are `Nat`.
* A UUID-as-string JWT `sub` claim is modelled by its parse result
  (`Option Nat`): the source only ever produces such strings with
  `Uuid::to_string` and consumes them with `str::parse::<Uuid>`, so a
  string is represented by the unique UUID it parses to, or `none`.
* Byte blobs (`Vec<u8>`) are `List Nat`.
* External library calls (WebAuthn verification, serde
  serialization/deserialization, header-value parsing) are taken as
  function parameters, so the theorems quantify over every behaviour of
  the library; fallible repository calls return `Except`.
-/

namespace MadomeAuth

/-- UUIDs, modelled by `Nat`. The nil UUID is `0`. -/
abbrev Uuid := Nat

/-- Opaque byte blobs (`Vec<u8>` in the source). -/
abbrev Blob := List Nat

/-- Mirrors `AuthServiceError` in `src/services/auth/src/error.rs`.
`Internal` carries the `context(...)` message attached where the error is
raised. -/
inductive AuthServiceError where
  | UserNotFound
  | CredentialNotFound
  | InvalidAuthcode
  | InvalidToken
  | InvalidRefreshToken
  | InvalidSession
  | InvalidCredential
  | TooManyAuthcodes
  | Internal (msg : String)
deriving DecidableEq

/-- Mirrors `AuthUser` in `src/services/auth/src/domain/types.rs`
(`role` is a `u8` in the source; its numeric value is never arithmetic
here, so `Nat` is faithful). -/
structure AuthUser where
  id : Uuid
  email : String
  role : Nat
deriving DecidableEq

/-- Mirrors `AuthCode` in `src/services/auth/src/domain/types.rs`. -/
structure AuthCode where
  id : Uuid
  user_id : Uuid
  code : String
  expires_at : Int
  used_at : Option Int
  created_at : Int
deriving DecidableEq

/-- Payload of an `authcode_created` outbox event: the JSON object with
the fields `email` and `code` built in `CreateAuthcodeUseCase::execute`. -/
structure AuthcodePayload where
  email : String
  code : String
deriving DecidableEq

/-- Mirrors `OutboxEvent` in `src/services/auth/src/domain/types.rs`. -/
structure OutboxEvent where
  id : Uuid
  kind : String
  payload : AuthcodePayload
  idempotency_key : String
deriving DecidableEq

/-- Mirrors `PasskeyRecord` in `src/services/auth/src/domain/types.rs`. -/
structure PasskeyRecord where
  credential_id : Blob
  user_id : Uuid
  aaguid : Uuid
  credential : Blob
  created_at : Int
deriving DecidableEq

-- ── Cookie builders (src/crates/madome-auth-types/src/cookie.rs) ──────────

/-- SameSite cookie attribute. -/
inductive SameSite where
  | Strict
  | Lax
  | NoneSite
deriving DecidableEq

/-- A built cookie, restricted to the attributes the builders in
`src/crates/madome-auth-types/src/cookie.rs` set. `max_age` is in
seconds. -/
structure Cookie where
  name : String
  value : String
  path : String
  domain : String
  max_age : Int
  http_only : Bool
  secure : Bool
  same_site : SameSite
deriving DecidableEq

/-- Cookie name for the access token. -/
def MADOME_ACCESS_TOKEN : String := "madome_access_token"

/-- Cookie name for the refresh token. -/
def MADOME_REFRESH_TOKEN : String := "madome_refresh_token"

/-- Access-token JWT lifetime in seconds (4 hours). -/
def ACCESS_TOKEN_EXP : Nat := 14400

/-- Cookie Max-Age for both tokens in seconds (7 days). -/
def REFRESH_TOKEN_EXP : Nat := 604800

/-- The cookie built by `set_access_token_cookie` before it is added to
the jar. -/
def accessTokenCookie (value domain : String) : Cookie :=
  { name := MADOME_ACCESS_TOKEN
    value := value
    path := "/"
    domain := domain
    max_age := (REFRESH_TOKEN_EXP : Int)
    http_only := true
    secure := true
    same_site := SameSite.Lax }

/-- The cookie built by `set_refresh_token_cookie` before it is added to
the jar. -/
def refreshTokenCookie (value domain : String) : Cookie :=
  { name := MADOME_REFRESH_TOKEN
    value := value
    path := "/auth/token"
    domain := domain
    max_age := (REFRESH_TOKEN_EXP : Int)
    http_only := true
    secure := true
    same_site := SameSite.Lax }

/-- Mirrors `set_access_token_cookie`: build the access cookie and add it
to the jar. -/
def set_access_token_cookie (jar : List Cookie) (value domain : String) : List Cookie :=
  jar ++ [accessTokenCookie value domain]

/-- Mirrors `set_refresh_token_cookie`: build the refresh cookie and add
it to the jar. -/
def set_refresh_token_cookie (jar : List Cookie) (value domain : String) : List Cookie :=
  jar ++ [refreshTokenCookie value domain]

-- ── Gateway identity extractor (src/crates/madome-auth-types/src/identity.rs) ──

/-- Levels of the tracing log entries the embedded code emits. -/
inductive LogLevel where
  | errorLevel
  | warnLevel
deriving DecidableEq

/-- One emitted log line. -/
structure LogEntry where
  level : LogLevel
  message : String
deriving DecidableEq

/-- First header value with the given name, as `http::HeaderMap::get`. -/
def headerGet (headers : List (String × String)) (name : String) : Option String :=
  (headers.find? (fun p => p.1 == name)).map (fun p => p.2)

/-- Mirrors `IdentityHeaders::from_request_parts`: read the two
gateway-injected headers, parse them (`Uuid`/`u8` parsing is a parameter),
and either return the identity pair or reject with the HTTP status code
`500`, emitting an error-level log. The returned list collects the log
entries emitted during extraction. -/
def identityFromRequestParts (parseUuid : String → Option Uuid)
    (parseU8 : String → Option Nat) (headers : List (String × String)) :
    Except Nat (Uuid × Nat) × List LogEntry :=
  let user_id := (headerGet headers ("x-madome-user-id")).bind parseUuid
  let user_role := (headerGet headers ("x-madome-user-role")).bind parseU8
  match user_id with
  | none =>
      (Except.error 500,
        [⟨LogLevel.errorLevel,
          "x-madome-user-id header missing or invalid — gateway misconfigured"⟩])
  | some uid =>
      match user_role with
      | none =>
          (Except.error 500,
            [⟨LogLevel.errorLevel,
              "x-madome-user-role header missing or invalid — gateway misconfigured"⟩])
      | some role => (Except.ok (uid, role), [])

-- ── Theorems: cookies and identity extractor ──────────────────────────────

/-- C6: for every token value and domain, the access-token cookie has name
`madome_access_token`, path `/`, max-age `604800` seconds, HttpOnly,
Secure, SameSite=Lax and the configured domain, and the refresh-token
cookie is identical except for name `madome_refresh_token` and path
`/auth/token`. -/
theorem token_cookie_attributes (value domain : String) :
    (accessTokenCookie value domain).name = "madome_access_token"
    ∧ (accessTokenCookie value domain).path = "/"
    ∧ (accessTokenCookie value domain).max_age = 604800
    ∧ (accessTokenCookie value domain).http_only = true
    ∧ (accessTokenCookie value domain).secure = true
    ∧ (accessTokenCookie value domain).same_site = SameSite.Lax
    ∧ (accessTokenCookie value domain).domain = domain
    ∧ (accessTokenCookie value domain).value = value
    ∧ refreshTokenCookie value domain =
        { accessTokenCookie value domain with
            name := "madome_refresh_token"
            path := "/auth/token" } :=
  ⟨rfl, rfl, rfl, rfl, rfl, rfl, rfl, rfl, rfl⟩

/-- C7: whenever the `x-madome-user-id` or `x-madome-user-role` header is
missing or fails to parse, the identity extractor rejects with HTTP 500
(never 401) and emits exactly one error-level log line citing gateway
misconfiguration; when both parse, it returns exactly the parsed
`(user_id, user_role)` pair with no log. -/
theorem identity_extractor_contract (parseUuid : String → Option Uuid)
    (parseU8 : String → Option Nat) (headers : List (String × String)) :
    ((headerGet headers ("x-madome-user-id")).bind parseUuid = none →
        identityFromRequestParts parseUuid parseU8 headers =
          (Except.error 500,
            [⟨LogLevel.errorLevel,
              "x-madome-user-id header missing or invalid — gateway misconfigured"⟩]))
    ∧ (∀ uid, (headerGet headers ("x-madome-user-id")).bind parseUuid = some uid →
        (headerGet headers ("x-madome-user-role")).bind parseU8 = none →
        identityFromRequestParts parseUuid parseU8 headers =
          (Except.error 500,
            [⟨LogLevel.errorLevel,
              "x-madome-user-role header missing or invalid — gateway misconfigured"⟩]))
    ∧ (∀ uid role, (headerGet headers ("x-madome-user-id")).bind parseUuid = some uid →
        (headerGet headers ("x-madome-user-role")).bind parseU8 = some role →
        identityFromRequestParts parseUuid parseU8 headers =
          (Except.ok (uid, role), [])) := by
  refine ⟨?_, ?_, ?_⟩
  · intro h
    simp only [identityFromRequestParts, h]
  · intro uid h hrole
    simp only [identityFromRequestParts, h, hrole]
  · intro uid role h hrole
    simp only [identityFromRequestParts, h, hrole]

/-- Concrete instances of the identity-extractor contract: a request with
both headers valid yields the parsed pair, and a request with no headers
is rejected with 500 plus the gateway-misconfiguration log line. -/
theorem identity_extractor_contract_witness :
    identityFromRequestParts
        (fun s => if s = "00000000-0000-0000-0000-000000000003" then some 3 else none)
        (fun s => if s = "1" then some 1 else none)
        [("x-madome-user-id", "00000000-0000-0000-0000-000000000003"),
         ("x-madome-user-role", "1")] =
      (Except.ok (3, 1), [])
    ∧ identityFromRequestParts
        (fun s => if s = "00000000-0000-0000-0000-000000000003" then some 3 else none)
        (fun s => if s = "1" then some 1 else none) [] =
      (Except.error 500,
        [⟨LogLevel.errorLevel,
          "x-madome-user-id header missing or invalid — gateway misconfigured"⟩]) := by
  constructor
  · exact (identity_extractor_contract
      (fun s => if s = "00000000-0000-0000-0000-000000000003" then some 3 else none)
      (fun s => if s = "1" then some 1 else none)
      [("x-madome-user-id", "00000000-0000-0000-0000-000000000003"),
       ("x-madome-user-role", "1")]).2.2 3 1 (by decide) (by decide)
  · exact (identity_extractor_contract
      (fun s => if s = "00000000-0000-0000-0000-000000000003" then some 3 else none)
      (fun s => if s = "1" then some 1 else none) []).1 (by decide)

-- ── Token codec (src/services/auth/src/usecase/token.rs) ──────────────────

/-- Mirrors `TokenClaims`: the claim set shared by access and refresh
tokens. `sub` is a UUID-as-string, modelled by its parse result (the
source produces it with `Uuid::to_string` and consumes it with
`str::parse::<Uuid>`); `none` stands for any string that is not a UUID. -/
structure TokenClaims where
  sub : Option Uuid
  role : Nat
  exp : Nat
deriving DecidableEq

/-- A well-formed HS256 JWT over `TokenClaims` (the only shape the source
ever signs: `Header::default()` is HS256). The signature is modelled
symbolically by the signing `secret`: verification under key `k` succeeds
iff `k = secret` (ideal MAC). Any presented string that is not such a
token is modelled by `none` at the use sites. -/
structure Jwt where
  claims : TokenClaims
  secret : String
deriving DecidableEq

/-- Decode-failure causes distinguished by `jsonwebtoken::decode`:
expired, bad signature, or malformed (incl. missing required claims). -/
inductive DecodeError where
  | ExpiredSignature
  | InvalidSignature
  | Malformed
deriving DecidableEq

/-- Default clock-skew leeway (seconds) `jsonwebtoken` applies to `exp`. -/
def VALIDATION_LEEWAY : Nat := 60

/-- Model of `jsonwebtoken::decode::<TokenClaims>` under the validation
set up in `validate_token` (HS256, `validate_exp`, required claims
`exp`/`sub`): a malformed input fails, a wrong-key signature fails, an
`exp` older than `now - leeway` fails, otherwise the claims are
returned. -/
def decodeJwt (token : Option Jwt) (secret : String) (now : Nat) :
    Except DecodeError TokenClaims :=
  match token with
  | none => Except.error DecodeError.Malformed
  | some j =>
      if j.secret ≠ secret then Except.error DecodeError.InvalidSignature
      else if j.claims.exp < now - VALIDATION_LEEWAY then
        Except.error DecodeError.ExpiredSignature
      else Except.ok j.claims

/-- Mirrors `issue_access_token`: sign the user's claims with
`exp = now + ACCESS_TOKEN_EXP` and return the token with its expiry. -/
def issue_access_token (user : AuthUser) (secret : String) (now : Nat) : Jwt × Nat :=
  let exp := now + ACCESS_TOKEN_EXP
  ({ claims := { sub := some user.id, role := user.role, exp := exp },
     secret := secret }, exp)

/-- Mirrors `issue_refresh_token`: same claim set with
`exp = now + REFRESH_TOKEN_EXP`. -/
def issue_refresh_token (user : AuthUser) (secret : String) (now : Nat) : Jwt :=
  { claims := { sub := some user.id, role := user.role, exp := now + REFRESH_TOKEN_EXP },
    secret := secret }

/-- Mirrors `validate_token`: decode the token and collapse every decode
failure to `InvalidRefreshToken`. -/
def validate_token (token : Option Jwt) (secret : String) (now : Nat) :
    Except AuthServiceError TokenClaims :=
  match decodeJwt token secret now with
  | Except.error _ => Except.error AuthServiceError.InvalidRefreshToken
  | Except.ok c => Except.ok c

/-- Mirrors `RefreshTokenOutput`. -/
structure RefreshTokenOutput where
  user_id : Uuid
  user_role : Nat
  access_token : Jwt
  access_token_exp : Nat
  refresh_token : Jwt
deriving DecidableEq

/-- Mirrors `RefreshTokenUseCase::execute`. `find_by_id` is the users-port
call; its `Except String` error channel is the RPC/infrastructure failure
that the `?` operator surfaces as `Internal`. -/
def refreshTokenExecute (find_by_id : Uuid → Except String (Option AuthUser))
    (secret : String) (now : Nat) (refresh_token_value : Option Jwt) :
    Except AuthServiceError RefreshTokenOutput :=
  match validate_token refresh_token_value secret now with
  | Except.error e => Except.error e
  | Except.ok claims =>
      match claims.sub with
      | none => Except.error AuthServiceError.InvalidRefreshToken
      | some user_id =>
          match find_by_id user_id with
          | Except.error msg => Except.error (AuthServiceError.Internal msg)
          | Except.ok none => Except.error AuthServiceError.InvalidRefreshToken
          | Except.ok (some user) =>
              let (access_token, access_token_exp) := issue_access_token user secret now
              let refresh_token := issue_refresh_token user secret now
              Except.ok { user_id := user.id, user_role := user.role
                          access_token := access_token
                          access_token_exp := access_token_exp
                          refresh_token := refresh_token }

-- ── Theorems: refresh flow ────────────────────────────────────────────────

/-- C4: every refresh-flow failure — expired token, bad signature,
malformed token, a `sub` that does not parse as a UUID, or a user no
longer found by id — yields the single error `InvalidRefreshToken`; the
only other error the caller can ever see is `Internal`, and that only
when the users-port call itself fails. -/
theorem refresh_token_failures_collapse
    (find_by_id : Uuid → Except String (Option AuthUser))
    (secret : String) (now : Nat) (t : Option Jwt) :
    (∀ derr, decodeJwt t secret now = Except.error derr →
        refreshTokenExecute find_by_id secret now t =
          Except.error AuthServiceError.InvalidRefreshToken)
    ∧ (∀ c, decodeJwt t secret now = Except.ok c → c.sub = none →
        refreshTokenExecute find_by_id secret now t =
          Except.error AuthServiceError.InvalidRefreshToken)
    ∧ (∀ c uid, decodeJwt t secret now = Except.ok c → c.sub = some uid →
        find_by_id uid = Except.ok none →
        refreshTokenExecute find_by_id secret now t =
          Except.error AuthServiceError.InvalidRefreshToken)
    ∧ (∀ e, refreshTokenExecute find_by_id secret now t = Except.error e →
        e = AuthServiceError.InvalidRefreshToken
        ∨ ∃ msg, e = AuthServiceError.Internal msg
            ∧ ∃ uid, find_by_id uid = Except.error msg) := by
  refine ⟨?_, ?_, ?_, ?_⟩
  · intro derr h
    simp only [refreshTokenExecute, validate_token, h]
  · intro c h hsub
    simp only [refreshTokenExecute, validate_token, h, hsub]
  · intro c uid h hsub hfind
    simp only [refreshTokenExecute, validate_token, h, hsub, hfind]
  · intro e he
    rcases hd : decodeJwt t secret now with derr | c
    · simp only [refreshTokenExecute, validate_token, hd] at he
      exact Or.inl (Except.error.inj he).symm
    · rcases hsub : c.sub with _ | uid
      · simp only [refreshTokenExecute, validate_token, hd, hsub] at he
        exact Or.inl (Except.error.inj he).symm
      · rcases hfind : find_by_id uid with msg | mu
        · simp only [refreshTokenExecute, validate_token, hd, hsub, hfind] at he
          exact Or.inr ⟨msg, (Except.error.inj he).symm, uid, hfind⟩
        · rcases mu with _ | user
          · simp only [refreshTokenExecute, validate_token, hd, hsub, hfind] at he
            exact Or.inl (Except.error.inj he).symm
          · simp only [refreshTokenExecute, validate_token, hd, hsub, hfind,
              issue_access_token, issue_refresh_token] at he
            exact Except.noConfusion he

/-- Concrete instances of the refresh-failure collapse: a malformed
token, an expired token, a wrong-secret token, a token whose `sub` is not
a UUID, and a valid token for a deleted user all yield
`InvalidRefreshToken`. -/
theorem refresh_token_failures_collapse_witness :
    refreshTokenExecute (fun _ => Except.ok none) "s" 1000 none =
      Except.error AuthServiceError.InvalidRefreshToken
    ∧ refreshTokenExecute (fun _ => Except.ok none) "s" 1000
        (some ⟨⟨some 1, 0, 100⟩, "s"⟩) =
      Except.error AuthServiceError.InvalidRefreshToken
    ∧ refreshTokenExecute (fun _ => Except.ok none) "s" 1000
        (some ⟨⟨some 1, 0, 999999⟩, "other"⟩) =
      Except.error AuthServiceError.InvalidRefreshToken
    ∧ refreshTokenExecute (fun _ => Except.ok none) "s" 1000
        (some ⟨⟨none, 0, 999999⟩, "s"⟩) =
      Except.error AuthServiceError.InvalidRefreshToken
    ∧ refreshTokenExecute (fun _ => Except.ok none) "s" 1000
        (some ⟨⟨some 1, 0, 999999⟩, "s"⟩) =
      Except.error AuthServiceError.InvalidRefreshToken := by
  refine ⟨?_, ?_, ?_, ?_, ?_⟩
  · exact (refresh_token_failures_collapse (fun _ => Except.ok none) "s" 1000 none).1
      DecodeError.Malformed rfl
  · exact (refresh_token_failures_collapse (fun _ => Except.ok none) "s" 1000
      (some ⟨⟨some 1, 0, 100⟩, "s"⟩)).1 DecodeError.ExpiredSignature rfl
  · exact (refresh_token_failures_collapse (fun _ => Except.ok none) "s" 1000
      (some ⟨⟨some 1, 0, 999999⟩, "other"⟩)).1 DecodeError.InvalidSignature rfl
  · exact (refresh_token_failures_collapse (fun _ => Except.ok none) "s" 1000
      (some ⟨⟨none, 0, 999999⟩, "s"⟩)).2.1 ⟨none, 0, 999999⟩ rfl rfl
  · exact (refresh_token_failures_collapse (fun _ => Except.ok none) "s" 1000
      (some ⟨⟨some 1, 0, 999999⟩, "s"⟩)).2.2.1 ⟨some 1, 0, 999999⟩ 1
      rfl rfl rfl

/-- Decoding a freshly issued access token under the same secret at the
same instant succeeds and returns its claim set. -/
theorem decodeJwt_issue_access_token (user : AuthUser) (secret : String) (now : Nat) :
    decodeJwt (some (issue_access_token user secret now).1) secret now =
      Except.ok ⟨some user.id, user.role, now + ACCESS_TOKEN_EXP⟩ := by
  have hexp : ¬ (now + ACCESS_TOKEN_EXP < now - VALIDATION_LEEWAY) := by
    unfold ACCESS_TOKEN_EXP VALIDATION_LEEWAY
    omega
  simp [decodeJwt, issue_access_token, hexp]

/-- C9: the refresh flow does not distinguish token kinds — an unexpired
access token issued for an existing user, presented as the refresh cookie
value, is accepted and a fresh access+refresh pair is issued, because the
claim sets are identical and `validate_token` checks only signature,
expiry and the required claims. -/
theorem access_token_accepted_by_refresh (user : AuthUser) (secret : String)
    (now : Nat) (find_by_id : Uuid → Except String (Option AuthUser))
    (hfind : find_by_id user.id = Except.ok (some user)) :
    refreshTokenExecute find_by_id secret now
        (some (issue_access_token user secret now).1) =
      Except.ok { user_id := user.id, user_role := user.role
                  access_token := (issue_access_token user secret now).1
                  access_token_exp := now + ACCESS_TOKEN_EXP
                  refresh_token := issue_refresh_token user secret now } := by
  unfold refreshTokenExecute validate_token
  rw [decodeJwt_issue_access_token]
  simp [hfind, issue_access_token, issue_refresh_token]

/-- Concrete instance of C9: the access token of the user with id 7 is
accepted by the refresh flow and a fresh pair comes back. -/
theorem access_token_accepted_by_refresh_witness :
    refreshTokenExecute
        (fun i => if i = 7 then Except.ok (some ⟨7, "u@e", 1⟩) else Except.ok none)
        "s" 1000 (some (issue_access_token ⟨7, "u@e", 1⟩ "s" 1000).1) =
      Except.ok { user_id := 7, user_role := 1
                  access_token := (issue_access_token ⟨7, "u@e", 1⟩ "s" 1000).1
                  access_token_exp := 1000 + ACCESS_TOKEN_EXP
                  refresh_token := issue_refresh_token ⟨7, "u@e", 1⟩ "s" 1000 } :=
  access_token_accepted_by_refresh ⟨7, "u@e", 1⟩ "s" 1000
    (fun i => if i = 7 then Except.ok (some ⟨7, "u@e", 1⟩) else Except.ok none)
    rfl

-- ── Auth-code engine (src/services/auth/src/usecase/authcode.rs and infra/db.rs) ──

/-- Charset for generating random auth codes (uppercase alphanumeric). -/
def CHARSET : List Char := "ABCDEFGHIJKLMNOPQRSTUVWXYZ0123456789".toList

/-- The charset has 36 symbols. -/
theorem CHARSET_length : CHARSET.length = 36 := rfl

/-- Maximum number of active (unused, unexpired) auth codes per user. -/
def MAX_ACTIVE_AUTHCODES : Nat := 5

/-- Auth code length in characters. -/
def AUTHCODE_LEN : Nat := 12

/-- Auth code time-to-live in seconds. -/
def AUTHCODE_TTL_SECS : Int := 120

/-- Mirrors `generate_code`: draw `AUTHCODE_LEN` indices into `CHARSET`.
The random source `rng.random_range(0..CHARSET.len())` is modelled by the
stream `rng : Nat → Fin 36` of indices it yields. -/
def generate_code (rng : Nat → Fin 36) : String :=
  ⟨(List.range AUTHCODE_LEN).map (fun i => CHARSET.get (Fin.cast CHARSET_length.symm (rng i)))⟩

/-- Mirrors `DbAuthCodeRepository::count_active`: rows of the user with
`used_at IS NULL AND expires_at > now`. -/
def count_active (db : List AuthCode) (user_id : Uuid) (now : Int) : Nat :=
  (db.filter (fun c => c.user_id == user_id && c.used_at.isNone && decide (now < c.expires_at))).length

/-- Persistent state touched by the auth-code engine: the `auth_codes`
and `outbox_events` tables. -/
structure AuthDbState where
  auth_codes : List AuthCode
  outbox_events : List OutboxEvent
deriving DecidableEq

/-- Mirrors `CreateAuthcodeUseCase::execute`. `find_by_email` is the
users-port lookup; `code_id` and `event_id` are the two freshly drawn
UUIDs; `now` is `Utc::now()`. `create_with_outbox` commits the code row
and the outbox row in one transaction, modelled as the simultaneous
append in the success branch. -/
def createAuthcodeExecute (find_by_email : String → Option AuthUser)
    (rng : Nat → Fin 36) (code_id event_id : Uuid) (now : Int)
    (st : AuthDbState) (email : String) :
    Except AuthServiceError Unit × AuthDbState :=
  match find_by_email email with
  | none => (Except.error AuthServiceError.UserNotFound, st)
  | some user =>
      let active := count_active st.auth_codes user.id now
      if MAX_ACTIVE_AUTHCODES ≤ active then
        (Except.error AuthServiceError.TooManyAuthcodes, st)
      else
        let code_str := generate_code rng
        let code : AuthCode :=
          { id := code_id, user_id := user.id, code := code_str
            expires_at := now + AUTHCODE_TTL_SECS, used_at := none, created_at := now }
        let event : OutboxEvent :=
          { id := event_id, kind := "authcode_created"
            payload := { email := email, code := code_str }
            idempotency_key := "authcode_created:" ++ toString code_id }
        (Except.ok (), { auth_codes := st.auth_codes ++ [code]
                         outbox_events := st.outbox_events ++ [event] })

/-- Mirrors `DbAuthCodeRepository::find_valid`: first row matching
`(user_id, code)` with `used_at IS NULL AND expires_at > now`. -/
def find_valid (db : List AuthCode) (user_id : Uuid) (code : String) (now : Int) :
    Option AuthCode :=
  (db.filter (fun c =>
      c.user_id == user_id && c.code == code && c.used_at.isNone
        && decide (now < c.expires_at))).head?

/-- Mirrors `DbAuthCodeRepository::mark_used`: `UPDATE auth_codes SET
used_at = now WHERE id = id`. sea-orm surfaces `RecordNotUpdated` when no
row matches, which `context("mark authcode used")` turns into
`Internal`. -/
def mark_used (db : List AuthCode) (id : Uuid) (now : Int) :
    Except AuthServiceError (List AuthCode) :=
  if db.any (fun c => c.id == id) then
    Except.ok (db.map (fun c => if c.id = id then { c with used_at := some now } else c))
  else Except.error (AuthServiceError.Internal ("mark authcode used"))

-- ── CreateToken (login) use-case with its operation trace ─────────────────

/-- Mirrors `CreateTokenOutput`. -/
structure CreateTokenOutput where
  user : AuthUser
  access_token : Jwt
  access_token_exp : Nat
  refresh_token : Jwt
deriving DecidableEq

/-- Observable operations of `CreateTokenUseCase::execute`, in the order
the use-case performs them. -/
inductive TokenEvent where
  | FindByEmailEv
  | FindValidEv
  | MarkUsedEv
  | IssueAccessEv
  | IssueRefreshEv
deriving DecidableEq, BEq

/-- Mirrors `CreateTokenUseCase::execute`, additionally returning the
updated `auth_codes` table and the trace of operations performed (in
execution order). `nowDb` is `Utc::now()` at the repository calls and
`nowSecs` the epoch seconds at token signing. -/
def createTokenExecute (find_by_email : String → Option AuthUser) (secret : String)
    (db : List AuthCode) (nowDb : Int) (nowSecs : Nat) (email code : String) :
    Except AuthServiceError CreateTokenOutput × List AuthCode × List TokenEvent :=
  match find_by_email email with
  | none => (Except.error AuthServiceError.UserNotFound, db, [TokenEvent.FindByEmailEv])
  | some user =>
      match find_valid db user.id code nowDb with
      | none =>
          (Except.error AuthServiceError.InvalidAuthcode, db,
            [TokenEvent.FindByEmailEv, TokenEvent.FindValidEv])
      | some auth_code =>
          match mark_used db auth_code.id nowDb with
          | Except.error e =>
              (Except.error e, db,
                [TokenEvent.FindByEmailEv, TokenEvent.FindValidEv, TokenEvent.MarkUsedEv])
          | Except.ok db' =>
              let (access_token, access_token_exp) := issue_access_token user secret nowSecs
              let refresh_token := issue_refresh_token user secret nowSecs
              (Except.ok { user := user, access_token := access_token
                           access_token_exp := access_token_exp
                           refresh_token := refresh_token },
               db',
               [TokenEvent.FindByEmailEv, TokenEvent.FindValidEv, TokenEvent.MarkUsedEv,
                TokenEvent.IssueAccessEv, TokenEvent.IssueRefreshEv])

-- ── Theorems: auth-code engine ────────────────────────────────────────────

/-- C5: when the user already has at least 5 active codes as counted by
this request, CreateAuthcode fails with `TooManyAuthcodes` and the
database state (auth codes and outbox events) is exactly unchanged. -/
theorem create_authcode_rate_limit_unchanged (find_by_email : String → Option AuthUser)
    (rng : Nat → Fin 36) (code_id event_id : Uuid) (now : Int) (st : AuthDbState)
    (email : String) (user : AuthUser)
    (huser : find_by_email email = some user)
    (hcount : 5 ≤ count_active st.auth_codes user.id now) :
    createAuthcodeExecute find_by_email rng code_id event_id now st email =
      (Except.error AuthServiceError.TooManyAuthcodes, st) := by
  simp only [createAuthcodeExecute, huser, MAX_ACTIVE_AUTHCODES]
  rw [if_pos hcount]

/-- Concrete instance of the rate limit: a sixth request for a user with
five active codes fails and leaves both tables untouched. -/
theorem create_authcode_rate_limit_unchanged_witness :
    createAuthcodeExecute (fun e => if e = "u@e" then some ⟨1, "u@e", 0⟩ else none)
        (fun _ => (0 : Fin 36)) 90 91 50
        ⟨[⟨21, 1, "A1", 100, none, 0⟩, ⟨22, 1, "A2", 100, none, 0⟩,
          ⟨23, 1, "A3", 100, none, 0⟩, ⟨24, 1, "A4", 100, none, 0⟩,
          ⟨25, 1, "A5", 100, none, 0⟩], []⟩ "u@e" =
      (Except.error AuthServiceError.TooManyAuthcodes,
        ⟨[⟨21, 1, "A1", 100, none, 0⟩, ⟨22, 1, "A2", 100, none, 0⟩,
          ⟨23, 1, "A3", 100, none, 0⟩, ⟨24, 1, "A4", 100, none, 0⟩,
          ⟨25, 1, "A5", 100, none, 0⟩], []⟩) :=
  create_authcode_rate_limit_unchanged (fun e => if e = "u@e" then some ⟨1, "u@e", 0⟩ else none)
    (fun _ => (0 : Fin 36)) 90 91 50
    ⟨[⟨21, 1, "A1", 100, none, 0⟩, ⟨22, 1, "A2", 100, none, 0⟩,
      ⟨23, 1, "A3", 100, none, 0⟩, ⟨24, 1, "A4", 100, none, 0⟩,
      ⟨25, 1, "A5", 100, none, 0⟩], []⟩ "u@e" ⟨1, "u@e", 0⟩ rfl (by decide)

/-- Every generated code has exactly `AUTHCODE_LEN = 12` characters. -/
theorem generate_code_length (rng : Nat → Fin 36) : (generate_code rng).length = 12 := by
  simp [generate_code, String.length, AUTHCODE_LEN]

/-- Every character of a generated code is drawn from the charset. -/
theorem generate_code_mem_charset (rng : Nat → Fin 36) :
    ∀ ch ∈ (generate_code rng).toList, ch ∈ CHARSET := by
  intro ch hch
  have hlist : (generate_code rng).toList =
      (List.range AUTHCODE_LEN).map
        (fun i => CHARSET.get (Fin.cast CHARSET_length.symm (rng i))) := rfl
  rw [hlist] at hch
  obtain ⟨i, _, rfl⟩ := List.mem_map.mp hch
  exact CHARSET.get_mem _ _

/-- C8: every successful CreateAuthcode appends exactly one code row,
whose code has 12 characters all drawn from `A–Z0–9` and whose expiry is
120 seconds after its creation instant. -/
theorem created_authcode_well_formed (find_by_email : String → Option AuthUser)
    (rng : Nat → Fin 36) (code_id event_id : Uuid) (now : Int) (st : AuthDbState)
    (email : String) (st' : AuthDbState) (user : AuthUser)
    (huser : find_by_email email = some user)
    (h : createAuthcodeExecute find_by_email rng code_id event_id now st email =
      (Except.ok (), st')) :
    st'.auth_codes = st.auth_codes ++
      [{ id := code_id, user_id := user.id, code := generate_code rng
         expires_at := now + AUTHCODE_TTL_SECS, used_at := none, created_at := now }]
    ∧ (generate_code rng).length = 12
    ∧ (∀ ch ∈ (generate_code rng).toList, ch ∈ CHARSET)
    ∧ (now + AUTHCODE_TTL_SECS) - now = 120 := by
  refine ⟨?_, generate_code_length rng, generate_code_mem_charset rng, ?_⟩
  · by_cases hcnt : MAX_ACTIVE_AUTHCODES ≤ count_active st.auth_codes user.id now
    · simp [createAuthcodeExecute, huser, hcnt] at h
    · simp only [createAuthcodeExecute, huser, if_neg hcnt, Prod.mk.injEq] at h
      exact congrArg AuthDbState.auth_codes h.2.symm
  · unfold AUTHCODE_TTL_SECS
    omega

/-- Concrete instance of C8: a successful request with a constant random
stream appends the code row `AAAAAAAAAAAA` with a 120-second expiry. -/
theorem created_authcode_well_formed_witness :
    (createAuthcodeExecute (fun _ => some ⟨1, "u@e", 0⟩) (fun _ => (0 : Fin 36))
        90 91 0 ⟨[], []⟩ "u@e").2.auth_codes =
      [] ++ [{ id := 90, user_id := 1, code := generate_code (fun _ => (0 : Fin 36))
               expires_at := 0 + AUTHCODE_TTL_SECS, used_at := none, created_at := 0 }]
    ∧ (generate_code (fun _ => (0 : Fin 36))).length = 12
    ∧ 'A' ∈ CHARSET
    ∧ ((0 : Int) + AUTHCODE_TTL_SECS) - 0 = 120 := by
  obtain ⟨h1, h2, h3, h4⟩ := created_authcode_well_formed (fun _ => some ⟨1, "u@e", 0⟩)
    (fun _ => (0 : Fin 36)) 90 91 0 ⟨[], []⟩ "u@e"
    (createAuthcodeExecute (fun _ => some ⟨1, "u@e", 0⟩) (fun _ => (0 : Fin 36))
      90 91 0 ⟨[], []⟩ "u@e").2 ⟨1, "u@e", 0⟩ rfl rfl
  exact ⟨h1, h2, h3 'A' (by decide), h4⟩

-- ── Theorems: CreateToken ordering and MarkUsed frame ─────────────────────

/-- C2 is refuted: this successful CreateToken execution (known user,
matching active code) performs MarkUsed strictly before IssueAccess and
IssueRefresh in its operation trace, so MarkUsed does not happen after
token issuance. -/
theorem create_token_mark_used_order_counterexample :
    ((createTokenExecute (fun e => if e = "u@e" then some ⟨1, "u@e", 0⟩ else none)
        "s" [⟨10, 1, "ABCDEF123456", 100, none, 0⟩] 50 1000 "u@e" "ABCDEF123456").1 =
      Except.ok { user := ⟨1, "u@e", 0⟩
                  access_token := (issue_access_token ⟨1, "u@e", 0⟩ "s" 1000).1
                  access_token_exp := 1000 + ACCESS_TOKEN_EXP
                  refresh_token := issue_refresh_token ⟨1, "u@e", 0⟩ "s" 1000 })
    ∧ ((createTokenExecute (fun e => if e = "u@e" then some ⟨1, "u@e", 0⟩ else none)
        "s" [⟨10, 1, "ABCDEF123456", 100, none, 0⟩] 50 1000 "u@e" "ABCDEF123456").2.2.indexOf
          TokenEvent.MarkUsedEv <
        (createTokenExecute (fun e => if e = "u@e" then some ⟨1, "u@e", 0⟩ else none)
          "s" [⟨10, 1, "ABCDEF123456", 100, none, 0⟩] 50 1000 "u@e" "ABCDEF123456").2.2.indexOf
          TokenEvent.IssueAccessEv)
    ∧ ((createTokenExecute (fun e => if e = "u@e" then some ⟨1, "u@e", 0⟩ else none)
        "s" [⟨10, 1, "ABCDEF123456", 100, none, 0⟩] 50 1000 "u@e" "ABCDEF123456").2.2.indexOf
          TokenEvent.MarkUsedEv <
        (createTokenExecute (fun e => if e = "u@e" then some ⟨1, "u@e", 0⟩ else none)
          "s" [⟨10, 1, "ABCDEF123456", 100, none, 0⟩] 50 1000 "u@e" "ABCDEF123456").2.2.indexOf
          TokenEvent.IssueRefreshEv) :=
  ⟨rfl, by decide, by decide⟩

/-- C2 (amended): in every successful CreateToken execution the operation
trace is exactly find-user, find-valid-code, mark-used, issue-access,
issue-refresh — MarkUsed happens after the code is found valid and before
both tokens are issued. -/
theorem create_token_marks_used_before_issuance (find_by_email : String → Option AuthUser)
    (secret : String) (db : List AuthCode) (nowDb : Int) (nowSecs : Nat)
    (email code : String) (out : CreateTokenOutput) (db' : List AuthCode)
    (tr : List TokenEvent)
    (h : createTokenExecute find_by_email secret db nowDb nowSecs email code =
      (Except.ok out, db', tr)) :
    tr = [TokenEvent.FindByEmailEv, TokenEvent.FindValidEv, TokenEvent.MarkUsedEv,
          TokenEvent.IssueAccessEv, TokenEvent.IssueRefreshEv] := by
  rcases huser : find_by_email email with _ | user
  · simp [createTokenExecute, huser] at h
  · rcases hfv : find_valid db user.id code nowDb with _ | ac
    · simp [createTokenExecute, huser, hfv] at h
    · rcases hmu : mark_used db ac.id nowDb with e | db2
      · simp [createTokenExecute, huser, hfv, hmu] at h
      · simp only [createTokenExecute, huser, hfv, hmu, Prod.mk.injEq] at h
        exact h.2.2.symm

/-- Concrete instance of the amended C2: the successful login above has
the full five-event trace. -/
theorem create_token_marks_used_before_issuance_witness :
    (createTokenExecute (fun e => if e = "u@e" then some ⟨1, "u@e", 0⟩ else none)
        "s" [⟨10, 1, "ABCDEF123456", 100, none, 0⟩] 50 1000 "u@e" "ABCDEF123456").2.2 =
      [TokenEvent.FindByEmailEv, TokenEvent.FindValidEv, TokenEvent.MarkUsedEv,
       TokenEvent.IssueAccessEv, TokenEvent.IssueRefreshEv] :=
  create_token_marks_used_before_issuance
    (fun e => if e = "u@e" then some ⟨1, "u@e", 0⟩ else none)
    "s" [⟨10, 1, "ABCDEF123456", 100, none, 0⟩] 50 1000 "u@e" "ABCDEF123456"
    _ _ _ rfl

/-- Pairs of a list zipped with its own map satisfy `p.2 = f p.1`. -/
theorem zip_map_snd {α β : Type} (f : α → β) (l : List α) :
    ∀ p ∈ l.zip (l.map f), p.2 = f p.1 := by
  induction l with
  | nil => intro p hp; cases hp
  | cons a t ih =>
      intro p hp
      rw [List.map_cons, List.zip_cons_cons] at hp
      cases hp with
      | head => rfl
      | tail _ hmem => exact ih p hmem

/-- Effect of the MarkUsed row function on a single row. -/
theorem mark_used_row (c : AuthCode) (id : Uuid) (now : Int) :
    ((if c.id = id then { c with used_at := some now } else c).id = c.id
      ∧ (if c.id = id then { c with used_at := some now } else c).user_id = c.user_id
      ∧ (if c.id = id then { c with used_at := some now } else c).code = c.code
      ∧ (if c.id = id then { c with used_at := some now } else c).expires_at = c.expires_at
      ∧ (if c.id = id then { c with used_at := some now } else c).created_at = c.created_at)
    ∧ (c.id ≠ id → (if c.id = id then { c with used_at := some now } else c) = c)
    ∧ (c.id = id →
        (if c.id = id then { c with used_at := some now } else c).used_at = some now) := by
  by_cases hid : c.id = id
  · simp [hid]
  · simp [hid]

/-- C10: MarkUsed(id) preserves the table length and, row by row, keeps
`id`, `user_id`, `code`, `expires_at` and `created_at`; rows whose id
differs are entirely unchanged, and matching rows get `used_at = now`. -/
theorem mark_used_frame (db : List AuthCode) (id : Uuid) (now : Int)
    (db' : List AuthCode) (h : mark_used db id now = Except.ok db') :
    db'.length = db.length
    ∧ ∀ p ∈ db.zip db',
        (p.2.id = p.1.id ∧ p.2.user_id = p.1.user_id ∧ p.2.code = p.1.code
          ∧ p.2.expires_at = p.1.expires_at ∧ p.2.created_at = p.1.created_at)
        ∧ (p.1.id ≠ id → p.2 = p.1)
        ∧ (p.1.id = id → p.2.used_at = some now) := by
  have hdb : db' = db.map (fun c => if c.id = id then { c with used_at := some now } else c) := by
    unfold mark_used at h
    by_cases hany : db.any (fun c => c.id == id)
    · rw [if_pos hany] at h
      exact (Except.ok.inj h).symm
    · rw [if_neg hany] at h
      exact absurd h (by simp)
  subst hdb
  refine ⟨by simp, ?_⟩
  intro p hp
  have h2 := zip_map_snd (fun c => if c.id = id then { c with used_at := some now } else c) db p hp
  rw [h2]
  exact mark_used_row p.1 id now

/-- Concrete instance of the MarkUsed frame: marking id 1 in a two-row
table preserves the length, sets `used_at` on the matching row and leaves
the other row identical. -/
theorem mark_used_frame_witness :
    [(⟨1, 2, "X1", 100, some 50, 0⟩ : AuthCode), ⟨3, 2, "Y1", 100, none, 0⟩].length =
      [(⟨1, 2, "X1", 100, none, 0⟩ : AuthCode), ⟨3, 2, "Y1", 100, none, 0⟩].length
    ∧ (⟨1, 2, "X1", 100, some 50, 0⟩ : AuthCode).used_at = some 50
    ∧ (⟨3, 2, "Y1", 100, none, 0⟩ : AuthCode) = ⟨3, 2, "Y1", 100, none, 0⟩ := by
  obtain ⟨hlen, hall⟩ := mark_used_frame
    [⟨1, 2, "X1", 100, none, 0⟩, ⟨3, 2, "Y1", 100, none, 0⟩] 1 50
    [⟨1, 2, "X1", 100, some 50, 0⟩, ⟨3, 2, "Y1", 100, none, 0⟩] rfl
  refine ⟨hlen, ?_, ?_⟩
  · exact (hall (⟨1, 2, "X1", 100, none, 0⟩, ⟨1, 2, "X1", 100, some 50, 0⟩)
      (by decide)).2.2 rfl
  · exact (hall (⟨3, 2, "Y1", 100, none, 0⟩, ⟨3, 2, "Y1", 100, none, 0⟩)
      (by decide)).2.1 (by decide)

-- ── Passkey engine (src/services/auth/src/usecase/passkey.rs, infra/cache.rs, infra/db.rs) ──

/-- Registration ceremony cache: Redis keys `passkey_reg:user:reg`,
modelled as an association list from `(user_id, registration_id)` to the
serialized ceremony-state blob. -/
abbrev RegCache := List ((Uuid × String) × Blob)

/-- Authentication ceremony cache: Redis keys `passkey_auth:email:auth`. -/
abbrev AuthCache := List ((String × String) × Blob)

/-- Mirrors `RedisPasskeyCache::take_registration_state`: Redis `GETDEL`,
returning the stored blob (if any) together with the cache with that key
removed. -/
def take_registration_state (cache : RegCache) (user_id : Uuid) (reg_id : String) :
    Option Blob × RegCache :=
  ((cache.find? (fun e => e.1 == (user_id, reg_id))).map (fun e => e.2),
   cache.filter (fun e => !(e.1 == (user_id, reg_id))))

/-- Mirrors `RedisPasskeyCache::take_authentication_state` (`GETDEL`). -/
def take_authentication_state (cache : AuthCache) (email auth_id : String) :
    Option Blob × AuthCache :=
  ((cache.find? (fun e => e.1 == (email, auth_id))).map (fun e => e.2),
   cache.filter (fun e => !(e.1 == (email, auth_id))))

/-- Mirrors `DbPasskeyRepository::update_credential`: `UPDATE passkeys
SET credential = ? WHERE credential_id = ?` (at both call sites the id is
taken from a fetched record, so the row exists). -/
def update_credential (db : List PasskeyRecord) (credential_id credential : Blob) :
    List PasskeyRecord :=
  db.map (fun r =>
    if r.credential_id = credential_id then { r with credential := credential } else r)

/-- Mirrors `FinishRegistrationUseCase::execute`. The WebAuthn library
and serde are parameters: `deserialize_state` is
`serde_json::from_slice::<PasskeyRegistration>` (`none` = failure),
`finish_passkey_registration` is the library verification (`none` =
failure), `cred_id_of`/`serialize_passkey` extract the credential id and
re-serialize the verified passkey, and `parse_aaguid_from_credential`
models the CBOR AAGUID extraction (`none` ⇒ the nil UUID `0` is stored).
Returns the result together with the new cache and passkeys table;
`create` fails on a duplicate primary key. -/
def finishRegistrationExecute {RegState PK Cred : Type}
    (deserialize_state : Blob → Option RegState)
    (finish_passkey_registration : Cred → RegState → Option PK)
    (cred_id_of : PK → Blob)
    (parse_aaguid_from_credential : Cred → Option Uuid)
    (serialize_passkey : PK → Blob)
    (cache : RegCache) (db : List PasskeyRecord)
    (user_id : Uuid) (registration_id : String) (credential : Cred) (now : Int) :
    Except AuthServiceError Unit × RegCache × List PasskeyRecord :=
  match take_registration_state cache user_id registration_id with
  | (none, cache') => (Except.error AuthServiceError.InvalidSession, cache', db)
  | (some state_json, cache') =>
      match deserialize_state state_json with
      | none => (Except.error AuthServiceError.InvalidSession, cache', db)
      | some reg_state =>
          match finish_passkey_registration credential reg_state with
          | none => (Except.error AuthServiceError.InvalidCredential, cache', db)
          | some passkey =>
              let cred_id := cred_id_of passkey
              let aaguid := (parse_aaguid_from_credential credential).getD 0
              let record : PasskeyRecord :=
                { credential_id := cred_id, user_id := user_id, aaguid := aaguid
                  credential := serialize_passkey passkey, created_at := now }
              if db.any (fun r => r.credential_id == record.credential_id) then
                (Except.error (AuthServiceError.Internal ("create passkey")), cache', db)
              else
                (Except.ok (), cache', db ++ [record])

/-- Mirrors `FinishAuthenticationUseCase::execute`. Library calls are
parameters as in `finishRegistrationExecute`; `update_credential_call`
is `Passkey::update_credential`, returning the library's counter-updated
flag together with the (possibly mutated) passkey. The stored records of
the user are fetched, deserialized with failures silently skipped, the
assertion is verified, and every zipped pair whose flag is `some true`
is re-serialized and written back by credential id; finally an
access+refresh pair is issued. -/
def finishAuthenticationExecute {AuthState PK Cred AuthResult : Type}
    (find_by_email : String → Option AuthUser)
    (deserialize_state : Blob → Option AuthState)
    (deserialize_passkey : Blob → Option PK)
    (finish_passkey_authentication : Cred → AuthState → Option AuthResult)
    (update_credential_call : PK → AuthResult → Option Bool × PK)
    (serialize_passkey : PK → Blob)
    (secret : String) (nowSecs : Nat)
    (cache : AuthCache) (db : List PasskeyRecord)
    (email authentication_id : String) (credential : Cred) :
    Except AuthServiceError CreateTokenOutput × AuthCache × List PasskeyRecord :=
  match find_by_email email with
  | none => (Except.error AuthServiceError.UserNotFound, cache, db)
  | some user =>
      match take_authentication_state cache email authentication_id with
      | (none, cache') => (Except.error AuthServiceError.InvalidSession, cache', db)
      | (some state_json, cache') =>
          match deserialize_state state_json with
          | none => (Except.error AuthServiceError.InvalidSession, cache', db)
          | some auth_state =>
              let stored := db.filter (fun r => r.user_id == user.id)
              let passkey_list := stored.filterMap (fun r => deserialize_passkey r.credential)
              match finish_passkey_authentication credential auth_state with
              | none => (Except.error AuthServiceError.InvalidCredential, cache', db)
              | some auth_result =>
                  let updates := (passkey_list.zip stored).filterMap (fun p =>
                    match update_credential_call p.1 auth_result with
                    | (some true, pk) => some (p.2.credential_id, serialize_passkey pk)
                    | _ => none)
                  let db' := updates.foldl (fun d u => update_credential d u.1 u.2) db
                  let (access_token, access_token_exp) := issue_access_token user secret nowSecs
                  let refresh_token := issue_refresh_token user secret nowSecs
                  (Except.ok { user := user, access_token := access_token
                               access_token_exp := access_token_exp
                               refresh_token := refresh_token }, cache', db')

-- ── Theorems: ceremony state single-use and counter-update persistence ────

/-- Searching for `q` in a list filtered down to the elements refuting
`q` finds nothing. -/
theorem find?_filter_not {α : Type} (q : α → Bool) (l : List α) :
    (l.filter (fun x => !(q x))).find? q = none := by
  induction l with
  | nil => rfl
  | cons a t ih =>
      by_cases h : q a
      · simp [List.filter_cons, h, ih]
      · simp [List.filter_cons, List.find?_cons, h, ih]

/-- Every FinishRegistration call, whatever its outcome, leaves the cache
with the ceremony key removed (the state was consumed by `GETDEL` before
verification). -/
theorem finishRegistrationExecute_cache {RegState PK Cred : Type}
    (ds : Blob → Option RegState) (fr : Cred → RegState → Option PK)
    (ci : PK → Blob) (pa : Cred → Option Uuid) (sp : PK → Blob)
    (cache : RegCache) (db : List PasskeyRecord)
    (user_id : Uuid) (registration_id : String) (credential : Cred) (now : Int) :
    (finishRegistrationExecute ds fr ci pa sp cache db
        user_id registration_id credential now).2.1 =
      cache.filter (fun e => !(e.1 == (user_id, registration_id))) := by
  unfold finishRegistrationExecute take_registration_state
  rcases hf : cache.find? (fun e => e.1 == (user_id, registration_id)) with _ | e
  · simp [hf]
  · simp only [hf, Option.map_some']
    rcases hds : ds e.2 with _ | st
    · simp [hds]
    · rcases hfr : fr credential st with _ | pk
      · simp [hds, hfr]
      · by_cases hdup : db.any (fun r => r.credential_id == ci pk)
        · simp [hds, hfr, hdup]
        · simp [hds, hfr, hdup]

/-- C3: ceremony state is single-use — of two consecutive
FinishRegistration calls with the same `(user_id, registration_id)` the
second always fails with `InvalidSession` (so at most one succeeds),
because the cached state is read-and-deleted before the WebAuthn
verification runs, even when the first call's verification fails. -/
theorem finish_registration_state_single_use {RegState PK Cred : Type}
    (ds : Blob → Option RegState) (fr : Cred → RegState → Option PK)
    (ci : PK → Blob) (pa : Cred → Option Uuid) (sp : PK → Blob)
    (cache : RegCache) (db : List PasskeyRecord)
    (user_id : Uuid) (registration_id : String) (cred1 cred2 : Cred) (now1 now2 : Int) :
    (finishRegistrationExecute ds fr ci pa sp
        (finishRegistrationExecute ds fr ci pa sp cache db
          user_id registration_id cred1 now1).2.1
        (finishRegistrationExecute ds fr ci pa sp cache db
          user_id registration_id cred1 now1).2.2
        user_id registration_id cred2 now2).1 =
      Except.error AuthServiceError.InvalidSession
    ∧ ¬((finishRegistrationExecute ds fr ci pa sp cache db
          user_id registration_id cred1 now1).1 = Except.ok ()
        ∧ (finishRegistrationExecute ds fr ci pa sp
            (finishRegistrationExecute ds fr ci pa sp cache db
              user_id registration_id cred1 now1).2.1
            (finishRegistrationExecute ds fr ci pa sp cache db
              user_id registration_id cred1 now1).2.2
            user_id registration_id cred2 now2).1 = Except.ok ()) := by
  have hfind : ((finishRegistrationExecute ds fr ci pa sp cache db
      user_id registration_id cred1 now1).2.1).find?
        (fun e => e.1 == (user_id, registration_id)) = none := by
    rw [finishRegistrationExecute_cache]
    exact find?_filter_not _ _
  have hsecond : (finishRegistrationExecute ds fr ci pa sp
      (finishRegistrationExecute ds fr ci pa sp cache db
        user_id registration_id cred1 now1).2.1
      (finishRegistrationExecute ds fr ci pa sp cache db
        user_id registration_id cred1 now1).2.2
      user_id registration_id cred2 now2).1 =
      Except.error AuthServiceError.InvalidSession := by
    generalize hgen : (finishRegistrationExecute ds fr ci pa sp cache db
        user_id registration_id cred1 now1).2.1 = c2 at hfind ⊢
    unfold finishRegistrationExecute
    simp [take_registration_state, hfind]
  exact ⟨hsecond, fun hboth => Except.noConfusion (hsecond.symm.trans hboth.2)⟩

/-- C1 is refuted by the code: `FinishAuthenticationUseCase::execute`
zips the deserialization-filtered passkey list with the unfiltered stored
record list. In this execution the first stored blob (`[99]`) fails to
deserialize and is silently skipped, the second record's passkey
(deserialized from blob `[7]`) has its counter updated to `8` by the
library — yet the re-serialized bytes `[8]` are persisted under the
first record's `credential_id = [0]`, while the updated passkey's own
record (`credential_id = [1]`) keeps its stale blob `[7]`. The call still
returns success with a fresh token pair. -/
theorem finish_authentication_counter_update_misaligned :
    finishAuthenticationExecute
        (fun e => if e = "u@e" then some ⟨1, "u@e", 0⟩ else none)
        (fun _ => some ())
        (fun b => if b = [7] then some (7 : Nat) else none)
        (fun _ _ => some ())
        (fun pk _ => (some true, pk + 1))
        (fun pk => [pk])
        "s" 1000
        [(("u@e", "aid"), [0])]
        [⟨[0], 1, 0, [99], 0⟩, ⟨[1], 1, 0, [7], 0⟩]
        "u@e" "aid" () =
      (Except.ok { user := ⟨1, "u@e", 0⟩
                   access_token := (issue_access_token ⟨1, "u@e", 0⟩ "s" 1000).1
                   access_token_exp := 1000 + ACCESS_TOKEN_EXP
                   refresh_token := issue_refresh_token ⟨1, "u@e", 0⟩ "s" 1000 },
       [],
       [⟨[0], 1, 0, [8], 0⟩, ⟨[1], 1, 0, [7], 0⟩]) := rfl

end MadomeAuth
